import Mathlib

/-!
Shallow embedding of the Fightcraft combat core
(`src/game/combat.py`, `src/game/effects.py`, `src/game/item.py`)
and proofs about its specified behaviour.

Python floats are modelled as rationals, Python ints as `ℤ`; the
truncating conversion `int(x)` is `pyInt`.  Mutation is modelled by
explicit state passing: every method that mutates an object returns the
updated object together with the method's return value.  Randomness in
`CombatSystem.execute_turn` is modelled by an explicit oracle
(`TurnRolls`) holding the values of the `random.random()` /
`random.uniform` draws the turn may consume.
-/

namespace Fightcraft

/-- Python's `int(x)` conversion on a rational: truncation toward zero. -/
def pyInt (q : ℚ) : ℤ := if q < 0 then ⌈q⌉ else ⌊q⌋

/-- `effects.py`: the `EffectType` enum. -/
inductive EffectType where
  | fire
  | lifesteal
  | poison
  | critical
  | bleed
  | freeze
  | lightning
  | reflect
  | shield
  | vampiric
deriving DecidableEq

/-- The string value of each enum member (`EffectType.FIRE = "fire"`, …). -/
def EffectType.value : EffectType → String
  | .fire => "fire"
  | .lifesteal => "lifesteal"
  | .poison => "poison"
  | .critical => "critical"
  | .bleed => "bleed"
  | .freeze => "freeze"
  | .lightning => "lightning"
  | .reflect => "reflect"
  | .shield => "shield"
  | .vampiric => "vampiric"

/-- `EffectType(s)` on a string: `some` member with that value, else the
`ValueError` case is `none`. -/
def effectTypeOfString (s : String) : Option EffectType :=
  if s = "fire" then some .fire
  else if s = "lifesteal" then some .lifesteal
  else if s = "poison" then some .poison
  else if s = "critical" then some .critical
  else if s = "bleed" then some .bleed
  else if s = "freeze" then some .freeze
  else if s = "lightning" then some .lightning
  else if s = "reflect" then some .reflect
  else if s = "shield" then some .shield
  else if s = "vampiric" then some .vampiric
  else none

/-- `self.effect_type.value.title()` as used in effect messages. -/
def EffectType.titleName : EffectType → String
  | .fire => "Fire"
  | .lifesteal => "Lifesteal"
  | .poison => "Poison"
  | .critical => "Critical"
  | .bleed => "Bleed"
  | .freeze => "Freeze"
  | .lightning => "Lightning"
  | .reflect => "Reflect"
  | .shield => "Shield"
  | .vampiric => "Vampiric"

/-- `item.py`: the `ItemStats` dataclass (combat-relevant fields). -/
structure ItemStats where
  damage : ℤ := 0
  armor : ℤ := 0
  speed : ℚ := 1
  health : ℤ := 0
  effect_type : String := ""
  effect_power : ℚ := 0
  special_effect : String := ""
deriving DecidableEq

/-- `effects.py`: an `ActiveEffect` on a fighter. -/
structure ActiveEffect where
  effect_type : EffectType
  power : ℚ
  duration : ℤ
  source_name : String := ""
  «stacks» : ℤ := 1
deriving DecidableEq

/-- Whether the effect kind is a damage-over-time kind
(`[EffectType.FIRE, EffectType.POISON, EffectType.BLEED]`). -/
def EffectType.isDot (t : EffectType) : Bool :=
  t == .fire || t == .poison || t == .bleed

/-- `ActiveEffect.tick`: decrement the duration, and for DoT kinds return
the damage `int(power * «stacks»)` and a message; returns the updated
effect alongside the Python return value. -/
def ActiveEffect.tick (e : ActiveEffect) : ActiveEffect × ℤ × String :=
  let e2 : ActiveEffect := { e with duration := e.duration - 1 }
  if e2.effect_type.isDot then
    let damage := pyInt (e2.power * (e2.«stacks» : ℚ))
    (e2, damage, e2.effect_type.titleName ++ " deals " ++ toString damage ++ " damage!")
  else
    (e2, 0, "")

/-- `ActiveEffect.is_expired`. -/
def ActiveEffect.is_expired (e : ActiveEffect) : Bool :=
  e.duration ≤ 0

/-- `EffectManager.add_effect`: the manager's effect list is the state.
The Python loop mutates the first entry of the same type and returns,
otherwise appends. -/
def add_effect : List ActiveEffect → ActiveEffect → List ActiveEffect
  | [], e => [e]
  | existing :: rest, e =>
    if existing.effect_type = e.effect_type then
      if e.effect_type = .bleed ∨ e.effect_type = .poison then
        { existing with «stacks» := existing.«stacks» + 1,
                        duration := max existing.duration e.duration } :: rest
      else
        { existing with duration := max existing.duration e.duration } :: rest
    else
      existing :: add_effect rest e

/-- `EffectManager.process_turn`: tick every effect in order, accumulate
DoT damage and messages, drop effects that are expired after ticking.
Returns (new effect list, total damage, messages). -/
def process_turn : List ActiveEffect → List ActiveEffect × ℤ × List String
  | [] => ([], 0, [])
  | e :: rest =>
    let t := e.tick
    let r := process_turn rest
    let msgs := if t.2.2 ≠ "" then t.2.2 :: r.2.2 else r.2.2
    ((if t.1.is_expired then r.1 else t.1 :: r.1), t.2.1 + r.2.1, msgs)

/-- The dictionary returned by `EffectManager.get_stat_modifiers`. -/
structure StatModifiers where
  damage_multiplier : ℚ
  speed_multiplier : ℚ
  armor_bonus : ℤ
  damage_reduction : ℚ
deriving DecidableEq

/-- `EffectManager.get_stat_modifiers`. -/
def get_stat_modifiers (effects : List ActiveEffect) : StatModifiers :=
  effects.foldl
    (fun m e =>
      if e.effect_type = .freeze then
        { m with speed_multiplier := m.speed_multiplier * (1 - e.power) }
      else if e.effect_type = .shield then
        { m with armor_bonus := m.armor_bonus + pyInt e.power }
      else m)
    { damage_multiplier := 1, speed_multiplier := 1, armor_bonus := 0, damage_reduction := 0 }

/-- `EffectManager.has_effect`. -/
def has_effect (effects : List ActiveEffect) (t : EffectType) : Bool :=
  effects.any (fun e => e.effect_type == t)

/-- `EffectManager.get_effect_power`. -/
def get_effect_power (effects : List ActiveEffect) (t : EffectType) : ℚ :=
  match effects.find? (fun e => e.effect_type == t) with
  | some e => e.power
  | none => 0

/-- `combat.py`: a `Fighter` (combat-relevant state; sprite and
health-bar animation state are rendering-only and omitted).  Equipment
slots hold the equipped item's `ItemStats`, since combat reads only
`item.stats` and `item.name` is unused by the combat logic. -/
structure Fighter where
  name : String
  max_health : ℤ
  current_health : ℤ
  is_player : Bool
  weapon : Option ItemStats
  armor : Option ItemStats
  concoction : Option ItemStats
  base_damage : ℤ
  base_armor : ℤ
  base_speed : ℚ
  effects : List ActiveEffect
deriving DecidableEq

/-- `Fighter.__init__(name, max_health, is_player)`. -/
def Fighter.make (name : String) (max_health : ℤ) (is_player : Bool) : Fighter :=
  { name := name
    max_health := max_health
    current_health := max_health
    is_player := is_player
    weapon := none
    armor := none
    concoction := none
    base_damage := 5
    base_armor := 0
    base_speed := 1
    effects := [] }

/-- `Fighter.equip_items`: store the equipment; a concoction sets
`current_health = min(max_health + concoction.health, max_health + 50)`. -/
def Fighter.equip_items (f : Fighter)
    (weapon armor concoction : Option ItemStats) : Fighter :=
  let f2 : Fighter := { f with weapon := weapon, armor := armor, concoction := concoction }
  match concoction with
  | some c =>
    { f2 with current_health := min (f2.max_health + c.health) (f2.max_health + 50) }
  | none => f2

/-- `Fighter.get_total_damage`. -/
def Fighter.get_total_damage (f : Fighter) : ℤ :=
  f.base_damage +
    match f.weapon with
    | some w => w.damage
    | none => 0

/-- `Fighter.get_total_armor`. -/
def Fighter.get_total_armor (f : Fighter) : ℤ :=
  f.base_armor +
    match f.armor with
    | some a => a.armor
    | none => 0

/-- `Fighter.get_total_speed`. -/
def Fighter.get_total_speed (f : Fighter) : ℚ :=
  let s1 := f.base_speed
  let s2 := match f.weapon with
    | some w => s1 * w.speed
    | none => s1
  let s3 := match f.armor with
    | some a => s2 * a.speed
    | none => s2
  match f.concoction with
  | some c => s3 * c.speed
  | none => s3

/-- `Fighter.take_damage`: armor gives `reduction = min(armor/200, 0.75)`,
`actual = int(damage * (1 - reduction))`, health clamped at 0; returns
the updated fighter and the actual damage taken. -/
def Fighter.take_damage (f : Fighter) (damage : ℤ) : Fighter × ℤ :=
  let armor := f.get_total_armor
  let damage_reduction : ℚ := min ((armor : ℚ) / 200) 0.75
  let actual_damage := pyInt ((damage : ℚ) * (1 - damage_reduction))
  ({ f with current_health := max 0 (f.current_health - actual_damage) }, actual_damage)

/-- `Fighter.is_alive`. -/
def Fighter.is_alive (f : Fighter) : Bool :=
  0 < f.current_health

/-- The oracle for the random draws one `execute_turn` call may consume:
`hit_roll`, `crit_roll`, `effect_roll` and `crit_msg_roll` stand for
`random.random()` results (in `[0,1)`), `variance` for the
`random.uniform(0.85, 1.15)` result. -/
structure TurnRolls where
  hit_roll : ℚ
  crit_roll : ℚ
  variance : ℚ
  effect_roll : ℚ
  crit_msg_roll : ℚ
deriving DecidableEq

/-- `CombatSystem._apply_weapon_effect` (particle spawning omitted):
dispatch on the attacker2xs weapon effect-type string; returns the
updated attacker, updated defender and the messages. -/
def apply_weapon_effect (attacker defender : Fighter) (damage : ℤ)
    (crit_msg_roll : ℚ) : Fighter × Fighter × List String :=
  match attacker.weapon with
  | none => (attacker, defender, [])
  | some w =>
    if w.effect_type = "" then (attacker, defender, [])
    else
      match effectTypeOfString w.effect_type with
      | none => (attacker, defender, [])
      | some et =>
        let power := w.effect_power
        match et with
        | .fire =>
          (attacker,
           { defender with effects := add_effect defender.effects ⟨.fire, power, 3, attacker.name, 1⟩ },
           ["  → " ++ defender.name ++ " is burning! (" ++ toString (pyInt power) ++
            " damage/turn for 3 turns)"])
        | .poison =>
          (attacker,
           { defender with effects := add_effect defender.effects ⟨.poison, power, 5, attacker.name, 1⟩ },
           ["  → " ++ defender.name ++ " is poisoned! (" ++ toString (pyInt power) ++
            " damage/turn for 5 turns)"])
        | .bleed =>
          (attacker,
           { defender with effects := add_effect defender.effects ⟨.bleed, power, 4, attacker.name, 1⟩ },
           ["  → " ++ defender.name ++ " is bleeding! (" ++ toString (pyInt power) ++
            " damage/turn for 4 turns)"])
        | .lifesteal =>
          let heal_amount := pyInt ((damage : ℚ) * power)
          let attacker2x : Fighter := { attacker with
            current_health := min attacker.max_health (attacker.current_health + heal_amount) }
          (attacker2x, defender,
           ["  → " ++ attacker.name ++ " steals " ++ toString heal_amount ++ " health!"])
        | .vampiric =>
          let heal_amount := pyInt ((damage : ℚ) * power)
          let attacker2x : Fighter := { attacker with
            current_health := min attacker.max_health (attacker.current_health + heal_amount) }
          (attacker2x, defender,
           ["  → " ++ attacker.name ++ " drains " ++ toString heal_amount ++ " life force!"])
        | .critical =>
          if crit_msg_roll < power then
            (attacker, defender, ["  → CRITICAL HIT! Devastating blow!"])
          else
            (attacker, defender, [])
        | .lightning =>
          let bonus_damage := pyInt power
          let r := defender.take_damage bonus_damage
          (attacker, r.1,
           ["  → Lightning strikes for " ++ toString r.2 ++ " bonus damage!"])
        | .freeze =>
          (attacker,
           { defender with effects := add_effect defender.effects ⟨.freeze, power, 2, attacker.name, 1⟩ },
           ["  → " ++ defender.name ++ " is slowed by frost!"])
        | .reflect =>
          match defender.armor with
          | some a =>
            if a.effect_type = "reflect" then
              let reflect_damage := pyInt ((damage : ℚ) * a.effect_power)
              let attacker2x : Fighter := { attacker with
                current_health := max 0 (attacker.current_health - reflect_damage) }
              (attacker2x, defender,
               ["  → Thorns reflect " ++ toString reflect_damage ++
                " damage back to " ++ attacker.name ++ "!"])
            else (attacker, defender, [])
          | none => (attacker, defender, [])
        | .shield =>
          (attacker, defender, ["  → " ++ w.special_effect ++ "!"])

/-- `combat.py`: the `CombatSystem` state.  The `turn_order` list of
fighter references is represented by `player_first : Bool` — `true`
when `turn_order = [player, enemy]`. -/
structure CombatSystem where
  player : Fighter
  enemy : Fighter
  turn : ℕ
  combat_log : List String
  combat_over : Bool
  player_won : Bool
  player_first : Bool
deriving DecidableEq

/-- `CombatSystem.__init__`: `_determine_turn_order` puts the player
first iff `player.get_total_speed() >= enemy.get_total_speed()`. -/
def CombatSystem.make (player enemy : Fighter) : CombatSystem :=
  { player := player
    enemy := enemy
    turn := 0
    combat_log := []
    combat_over := false
    player_won := false
    player_first := decide (enemy.get_total_speed ≤ player.get_total_speed) }

/-- The fighter referred to by `turn_order[turn % 2]` is the player iff
this holds. -/
def CombatSystem.attacker_is_player (cs : CombatSystem) : Bool :=
  if cs.turn % 2 = 0 then cs.player_first else !cs.player_first

/-- Read one of the two fighters by role. -/
def CombatSystem.get_fighter (cs : CombatSystem) (p : Bool) : Fighter :=
  if p then cs.player else cs.enemy

/-- Replace one of the two fighters by role. -/
def CombatSystem.set_fighter (cs : CombatSystem) (p : Bool) (f : Fighter) :
    CombatSystem :=
  if p then { cs with player := f } else { cs with enemy := f }

/-- The attacker speed used for the hit chance in `execute_turn`:
`get_total_speed()` times `(1 - freeze_power)` when a FREEZE effect is
active. -/
def effective_attacker_speed (f : Fighter) : ℚ :=
  let speed := f.get_total_speed
  if has_effect f.effects .freeze then
    speed * (1 - get_effect_power f.effects .freeze)
  else speed

/-- `hit_chance = max(0.7, min(0.95, 0.8 + (attacker_speed - 1.0) * 0.15))`. -/
def hit_chance_of (speed : ℚ) : ℚ :=
  max 0.7 (min 0.95 (0.8 + (speed - 1) * 0.15))

/-- Whether the critical-hit branch of the hit path fires:
weapon present with effect type `"critical"` and the critical roll
beats the effect power. -/
def crit_applies (attacker : Fighter) (rolls : TurnRolls) : Bool :=
  match attacker.weapon with
  | some w => w.effect_type == "critical" && decide (rolls.crit_roll < w.effect_power)
  | none => false

/-- The damage of a landed hit before mitigation: total damage,
multiplied by 1.5 (truncated) on a critical, then scaled by the
variance draw (truncated). -/
def hit_damage (attacker : Fighter) (rolls : TurnRolls) : ℤ :=
  let d0 := attacker.get_total_damage
  let d1 := if crit_applies attacker rolls then pyInt ((d0 : ℚ) * 1.5) else d0
  pyInt ((d1 : ℚ) * rolls.variance)

/-- The trigger probability of the weapon effect:
1.0 for lifesteal/vampiric weapons, else 0.3. -/
def effect_chance_of (attacker : Fighter) : ℚ :=
  match attacker.weapon with
  | some w => if w.effect_type = "lifesteal" ∨ w.effect_type = "vampiric" then 1 else 3 / 10
  | none => 3 / 10

/-- Whether the weapon-effect step runs: weapon present with a non-empty
effect-type string and the effect roll beats the trigger chance. -/
def effect_triggers (attacker : Fighter) (rolls : TurnRolls) : Bool :=
  match attacker.weapon with
  | some w => w.effect_type != "" && decide (rolls.effect_roll < effect_chance_of attacker)
  | none => false

/-- The pre-`take_damage` reflect check of the hit path: when the
defender's armor has effect type `"reflect"`, subtract
`int(damage * effect_power)` of the pre-mitigation damage directly from
the attacker2xs health (clamped at 0) and emit the thorns message. -/
def reflect_step (attacker defender : Fighter) (damage : ℤ) :
    Fighter × List String :=
  match defender.armor with
  | some a =>
    if a.effect_type = "reflect" then
      let reflect_damage := pyInt ((damage : ℚ) * a.effect_power)
      ({ attacker with
          current_health := max 0 (attacker.current_health - reflect_damage) },
       ["  → Thorns reflect " ++ toString reflect_damage ++
        " damage back to " ++ attacker.name ++ "!"])
    else (attacker, [])
  | none => (attacker, [])

/-- The hit/miss resolution of `execute_turn` applied to the two
fighters: on a hit, compute the damage, run the reflect check, apply
`take_damage` to the defender, and run the weapon-effect step when it
triggers; on a miss, emit the miss message.  Returns the updated
attacker, updated defender and the messages of this phase. -/
def attack_step (attacker defender : Fighter) (rolls : TurnRolls) :
    Fighter × Fighter × List String :=
  if rolls.hit_roll < hit_chance_of (effective_attacker_speed attacker) then
    let damage := hit_damage attacker rolls
    let refl := reflect_step attacker defender damage
    let attacker1 := refl.1
    let td := defender.take_damage damage
    let defender1 := td.1
    let actual_damage := td.2
    let attack_msg := attacker1.name ++ " attacks " ++ defender1.name ++ " for " ++
      toString actual_damage ++ " damage!" ++
      (if crit_applies attacker rolls then " CRITICAL HIT!" else "")
    if effect_triggers attacker1 rolls then
      let ae := apply_weapon_effect attacker1 defender1 actual_damage rolls.crit_msg_roll
      (ae.1, ae.2.1, [attack_msg] ++ refl.2 ++ ae.2.2)
    else
      (attacker1, defender1, [attack_msg] ++ refl.2)
  else
    (attacker, defender, [attacker.name ++ " attacks but misses!"])

/-- The attack phase of `execute_turn` (steps after DoT processing):
`cs` already holds the DoT-processed attacker, `msgs0` the messages
produced so far this turn.  Performs hit/miss resolution, the reflect
check, `take_damage`, the weapon-effect step, the terminal check, log
append and turn increment. -/
def CombatSystem.attack_phase (cs : CombatSystem) (aip : Bool)
    (msgs0 : List String) (rolls : TurnRolls) : CombatSystem × List String :=
  let attacker := cs.get_fighter aip
  let defender := cs.get_fighter (!aip)
  let step := attack_step attacker defender rolls
  let cs2 := (cs.set_fighter aip step.1).set_fighter (!aip) step.2.1
  let msgs1 := msgs0 ++ step.2.2
  let fin :=
    if !cs2.player.is_alive then
      ({ cs2 with combat_over := true, player_won := false },
       msgs1 ++ [cs2.enemy.name ++ " wins!"])
    else if !cs2.enemy.is_alive then
      ({ cs2 with combat_over := true, player_won := true },
       msgs1 ++ [cs2.player.name ++ " wins!"])
    else (cs2, msgs1)
  ({ fin.1 with combat_log := fin.1.combat_log ++ fin.2, turn := fin.1.turn + 1 },
   fin.2)

/-- `CombatSystem.execute_turn`: returns the new combat state and the
messages produced this call. -/
def CombatSystem.execute_turn (cs : CombatSystem) (rolls : TurnRolls) :
    CombatSystem × List String :=
  if cs.combat_over then (cs, [])
  else
    let aip := cs.attacker_is_player
    let attacker0 := cs.get_fighter aip
    let pt := process_turn attacker0.effects
    let attacker1 : Fighter := { attacker0 with effects := pt.1 }
    let dot_damage := pt.2.1
    let dot_messages := pt.2.2
    if 0 < dot_damage then
      let attacker2 : Fighter := { attacker1 with
        current_health := max 0 (attacker1.current_health - dot_damage) }
      if !attacker2.is_alive then
        let pw := !aip
        let messages := dot_messages ++
          [attacker2.name ++ " succumbs to their wounds!"] ++
          [(if pw then cs.player.name else cs.enemy.name) ++ " wins!"]
        let cs1 := (cs.set_fighter aip attacker2)
        ({ cs1 with combat_over := true, player_won := pw,
                    combat_log := cs1.combat_log ++ messages,
                    turn := cs1.turn + 1 },
         messages)
      else
        (cs.set_fighter aip attacker2).attack_phase aip dot_messages rolls
    else
      (cs.set_fighter aip attacker1).attack_phase aip [] rolls

/-!  Claim-side definitions: nouns the spec's claims speak about,
phrased independently of the embedding where the claim compares the two. -/

/-- No two entries of the effect list share an effect type. -/
def types_distinct (l : List ActiveEffect) : Prop :=
  l.Pairwise (fun a b => a.effect_type ≠ b.effect_type)

/-- The reapplication rule of the spec: stacking kinds (BLEED, POISON)
gain a stack, every kind refreshes the duration to the max. -/
def stack_update (y e : ActiveEffect) : ActiveEffect :=
  if e.effect_type = .bleed ∨ e.effect_type = .poison then
    { y with «stacks» := y.«stacks» + 1, duration := max y.duration e.duration }
  else
    { y with duration := max y.duration e.duration }

/-- One tick of the duration clock, per the spec's `processTurn`. -/
def tick_decrement (e : ActiveEffect) : ActiveEffect :=
  { e with duration := e.duration - 1 }

/-- The spec's per-effect DoT damage: `floor(power * stacks)`. -/
def dot_damage_of (e : ActiveEffect) : ℤ :=
  ⌊e.power * (e.«stacks» : ℚ)⌋

/-- The spec's per-effect DoT message, naming the kind and the amount. -/
def dot_message_of (e : ActiveEffect) : String :=
  e.effect_type.titleName ++ " deals " ++ toString ⌊e.power * (e.«stacks» : ℚ)⌋ ++ " damage!"

/-- The speed multiplier of an optional equipment slot (1 when empty). -/
def speed_of_slot : Option ItemStats → ℚ
  | some s => s.speed
  | none => 1

/-- The armor stat of an optional equipment slot (0 when empty). -/
def armor_of_slot : Option ItemStats → ℤ
  | some s => s.armor
  | none => 0

/-- The stat ranges the spec's data model prescribes for generated items
(§3: `damage:int≥0, armor:int≥0, health:int≥0`, effect powers
non-negative). -/
def ItemStats.nonneg (s : ItemStats) : Prop :=
  0 ≤ s.damage ∧ 0 ≤ s.armor ∧ 0 ≤ s.health ∧ 0 ≤ s.effect_power

/-- `ItemStats.nonneg` lifted to an optional slot. -/
def slot_nonneg : Option ItemStats → Prop
  | some s => s.nonneg
  | none => True

/-- Powers and stack counts of the active effects are non-negative. -/
def effects_nonneg (l : List ActiveEffect) : Prop :=
  ∀ e ∈ l, 0 ≤ e.power ∧ 0 ≤ e.«stacks»

/-- The well-formedness the spec's data model gives a fighter: base
stats non-negative and every equipped item within the §3 stat ranges. -/
def Fighter.wf (f : Fighter) : Prop :=
  0 ≤ f.max_health ∧ 0 ≤ f.base_damage ∧ 0 ≤ f.base_armor ∧
  slot_nonneg f.weapon ∧ slot_nonneg f.armor ∧ slot_nonneg f.concoction ∧
  effects_nonneg f.effects

/-- The claimed health range: `currentHealth ∈ [0, maxHealth + 50]`. -/
def Fighter.health_ok (f : Fighter) : Prop :=
  0 ≤ f.current_health ∧ f.current_health ≤ f.max_health + 50

/-!  Concrete scenario states used by counterexamples and witnesses. -/

/-- A fighter with an active SHIELD effect of power 10 and no armor. -/
def shield_fighter : Fighter :=
  { Fighter.make "Guard" 100 true with effects := [⟨.shield, 10, 3, "E", 1⟩] }

/-- A fighter with an active FREEZE effect of power 1/2 and no equipment. -/
def frozen_fighter : Fighter :=
  { Fighter.make "Cold" 100 true with effects := [⟨.freeze, 1/2, 2, "E", 1⟩] }

/-- A thorns armor item: full-strength REFLECT, no armor stat. -/
def reflect_armor : ItemStats :=
  { armor := 0, effect_type := "reflect", effect_power := 1 }

/-- A 5-HP player wearing the thorns armor, slow enough to act second. -/
def reflect_player : Fighter :=
  { Fighter.make "P" 5 true with armor := some reflect_armor, base_speed := 1/2 }

/-- A 5-HP enemy with bare fists (base damage 5). -/
def reflect_enemy : Fighter := Fighter.make "E" 5 false

/-- Combat in which the enemy acts first and both fighters die on the
first action: the enemy from thorns, the player from the hit. -/
def reflect_cs : CombatSystem := CombatSystem.make reflect_player reflect_enemy

/-- Mirror scenario for the amended reflect claim: the player acts
first against a thorns-armored enemy and both die on the action. -/
def reflect_cs_mirror : CombatSystem :=
  CombatSystem.make (Fighter.make "P" 5 true)
    { Fighter.make "E" 5 false with armor := some reflect_armor, base_speed := 1/2 }

/-- Deterministic rolls: always hit, no critical, neutral variance,
weapon effect triggers when one exists. -/
def fixed_rolls : TurnRolls := ⟨0, 0, 1, 0, 0⟩

/-- A fighter at 5 HP burning for 100 damage per turn: the next DoT
tick is lethal. -/
def dot_victim : Fighter :=
  { Fighter.make "P" 100 true with
    current_health := 5, effects := [⟨.fire, 100, 3, "E", 1⟩] }

/-- Combat whose first turn kills the attacker by DoT alone. -/
def dot_cs : CombatSystem := CombatSystem.make dot_victim (Fighter.make "E" 100 false)

/-- A lifesteal weapon of power 1/2. -/
def lifesteal_weapon : ItemStats :=
  { damage := 10, effect_type := "lifesteal", effect_power := 1/2 }

/-- An overhealed fighter: a concoction pushed health to 120 of 100. -/
def overhealed_fighter : Fighter :=
  { Fighter.make "P" 100 true with
    current_health := 120, weapon := some lifesteal_weapon,
    concoction := some { health := 20 } }

/-!  Helper lemmas. -/

theorem pyInt_eq_floor {q : ℚ} (h : 0 ≤ q) : pyInt q = ⌊q⌋ := by
  simp [pyInt, not_lt.mpr h]

theorem pyInt_nonneg {q : ℚ} (h : 0 ≤ q) : 0 ≤ pyInt q := by
  rw [pyInt_eq_floor h]
  exact Int.floor_nonneg.mpr h

theorem take_damage_reduction_lt_one (f : Fighter) :
    min ((f.get_total_armor : ℚ) / 200) 0.75 ≤ 0.75 :=
  min_le_right _ _

/-- C1: for every fighter and every non-negative `rawDamage`,
`take_damage` uses damage reduction `min(totalArmor/200, 0.75)` — never
above 0.75 for any armor value — deals
`actualDamage = floor(rawDamage * (1 - reduction))`, clamps
`currentHealth` at `max(0, currentHealth - actualDamage)`, and returns
`actualDamage`. -/
theorem C1_take_damage_spec (f : Fighter) (raw : ℤ) (hraw : 0 ≤ raw) :
    min ((f.get_total_armor : ℚ) / 200) 0.75 ≤ 0.75 ∧
    (f.take_damage raw).2 =
      ⌊(raw : ℚ) * (1 - min ((f.get_total_armor : ℚ) / 200) 0.75)⌋ ∧
    (f.take_damage raw).1.current_health =
      max 0 (f.current_health - (f.take_damage raw).2) := by
  refine ⟨take_damage_reduction_lt_one f, ?_, rfl⟩
  have hred := take_damage_reduction_lt_one f
  have h1 : (0 : ℚ) ≤ 1 - min ((f.get_total_armor : ℚ) / 200) 0.75 := by
    have : (0.75 : ℚ) ≤ 1 := by norm_num
    linarith
  have h0 : (0 : ℚ) ≤ (raw : ℚ) := by exact_mod_cast hraw
  exact pyInt_eq_floor (mul_nonneg h0 h1)

/-- C1 witness: the specification instantiated at an unarmored
100-HP fighter struck for 10. -/
theorem C1_take_damage_spec_witness :
    (0 : ℤ) ≤ 10 ∧
    (min (((Fighter.make "P" 100 true).get_total_armor : ℚ) / 200) 0.75 ≤ 0.75 ∧
     ((Fighter.make "P" 100 true).take_damage 10).2 =
       ⌊((10 : ℤ) : ℚ) *
         (1 - min (((Fighter.make "P" 100 true).get_total_armor : ℚ) / 200) 0.75)⌋ ∧
     ((Fighter.make "P" 100 true).take_damage 10).1.current_health =
       max 0 ((Fighter.make "P" 100 true).current_health -
         ((Fighter.make "P" 100 true).take_damage 10).2)) :=
  ⟨by norm_num, C1_take_damage_spec (Fighter.make "P" 100 true) 10 (by norm_num)⟩

/-- C2 counterexample: a fighter with an active SHIELD effect of power
10, no armor item and base armor 0.  `get_total_armor` returns 0, while
the claim's formula `baseArmor + itemArmor + shieldBonus` gives 10:
the SHIELD bonus of `get_stat_modifiers` is not part of the total
armor. -/
theorem C2_counterexample :
    shield_fighter.get_total_armor ≠
      shield_fighter.base_armor + armor_of_slot shield_fighter.armor +
        (get_stat_modifiers shield_fighter.effects).armor_bonus ∧
    shield_fighter.get_total_armor = 0 ∧
    (get_stat_modifiers shield_fighter.effects).armor_bonus = 10 := by
  have hne : (EffectType.shield = EffectType.freeze) = False := by simp
  norm_num [shield_fighter, Fighter.make, Fighter.get_total_armor, get_stat_modifiers,
    armor_of_slot, pyInt, List.foldl, hne]

/-- C2 amended: `get_total_armor` is `baseArmor` plus the equipped
armor item's armor stat (0 when no armor is equipped), and ignores the
fighter's active effects entirely — the SHIELD `armor_bonus` that
`get_stat_modifiers` reports is never consulted. -/
theorem C2_total_armor_spec (f : Fighter) :
    f.get_total_armor = f.base_armor + armor_of_slot f.armor ∧
    ∀ es : List ActiveEffect,
      ({ f with effects := es } : Fighter).get_total_armor = f.get_total_armor := by
  refine ⟨?_, fun es => rfl⟩
  rcases ha : f.armor with _ | a <;>
    simp [Fighter.get_total_armor, armor_of_slot, ha]

/-- C3 counterexample: a fighter with an active FREEZE effect of power
1/2 has `get_total_speed = 1`, exactly the speed it has with no effects
at all, and not the claimed
`base * weapon * armor * concoction * (1 - freezePower) = 1/2` —
so an active FREEZE does not make `get_total_speed` strictly smaller. -/
theorem C3_counterexample :
    frozen_fighter.get_total_speed = 1 ∧
    ({ frozen_fighter with effects := [] } : Fighter).get_total_speed = 1 ∧
    ¬ frozen_fighter.get_total_speed <
        ({ frozen_fighter with effects := [] } : Fighter).get_total_speed ∧
    frozen_fighter.get_total_speed ≠
      frozen_fighter.base_speed * speed_of_slot frozen_fighter.weapon *
        speed_of_slot frozen_fighter.armor * speed_of_slot frozen_fighter.concoction *
        (1 - get_effect_power frozen_fighter.effects .freeze) := by
  norm_num [frozen_fighter, Fighter.make, Fighter.get_total_speed, get_effect_power,
    speed_of_slot, List.find?]

/-- C3 amended: `get_total_speed` is `baseSpeed` times the speed stats
of the equipped weapon, armor and concoction (each 1 when absent) and
ignores active effects; the freeze factor `(1 - freezePower)` is
applied separately by `execute_turn` to the attacker2xs speed (and only
there), multiplying `get_total_speed` when a FREEZE effect is active. -/
theorem C3_total_speed_spec (f : Fighter) :
    f.get_total_speed = f.base_speed * speed_of_slot f.weapon *
      speed_of_slot f.armor * speed_of_slot f.concoction ∧
    (∀ es : List ActiveEffect,
      ({ f with effects := es } : Fighter).get_total_speed = f.get_total_speed) ∧
    (has_effect f.effects .freeze = true →
      effective_attacker_speed f =
        f.get_total_speed * (1 - get_effect_power f.effects .freeze)) ∧
    (has_effect f.effects .freeze = false →
      effective_attacker_speed f = f.get_total_speed) := by
  refine ⟨?_, fun es => rfl, ?_, ?_⟩
  · rcases hw : f.weapon with _ | w <;> rcases ha : f.armor with _ | a <;>
      rcases hc : f.concoction with _ | c <;>
      simp [Fighter.get_total_speed, speed_of_slot, hw, ha, hc]
  · intro h
    simp [effective_attacker_speed, h]
  · intro h
    simp [effective_attacker_speed, h]

/-- C3 amended witness: the frozen fighter's effective attacker speed
is its total speed scaled by `1 - 1/2`. -/
theorem C3_total_speed_spec_witness :
    has_effect frozen_fighter.effects .freeze = true ∧
    effective_attacker_speed frozen_fighter =
      frozen_fighter.get_total_speed *
        (1 - get_effect_power frozen_fighter.effects .freeze) :=
  ⟨by decide, (C3_total_speed_spec frozen_fighter).2.2.1 (by decide)⟩

/-- C9: once `combat_over` is true, `execute_turn` returns no messages
and leaves the whole combat state — fighters, log, counters, flags —
unchanged. -/
theorem C9_terminal_frame (cs : CombatSystem) (rolls : TurnRolls)
    (h : cs.combat_over = true) :
    cs.execute_turn rolls = (cs, []) := by
  unfold CombatSystem.execute_turn
  simp [h]

theorem append_ne_empty_of_right (s t : String) (ht : t.length ≠ 0) :
    s ++ t ≠ "" := by
  intro h
  have h2 := congrArg String.length h
  simp [String.length_append] at h2
  exact ht h2.2

theorem tick_fst (e : ActiveEffect) : e.tick.1 = tick_decrement e := by
  simp only [ActiveEffect.tick]
  split <;> rfl

theorem tick_dmg_dot (e : ActiveEffect) (h : e.effect_type.isDot = true) :
    e.tick.2.1 = pyInt (e.power * (e.«stacks» : ℚ)) := by
  simp only [ActiveEffect.tick]
  split <;> simp_all

theorem tick_dmg_nondot (e : ActiveEffect) (h : e.effect_type.isDot = false) :
    e.tick.2.1 = 0 := by
  simp only [ActiveEffect.tick]
  split <;> simp_all

theorem tick_msg_dot (e : ActiveEffect) (h : e.effect_type.isDot = true) :
    e.tick.2.2 = e.effect_type.titleName ++ " deals " ++
      toString (pyInt (e.power * (e.«stacks» : ℚ))) ++ " damage!" := by
  simp only [ActiveEffect.tick]
  split <;> simp_all

theorem tick_msg_nondot (e : ActiveEffect) (h : e.effect_type.isDot = false) :
    e.tick.2.2 = "" := by
  simp only [ActiveEffect.tick]
  split <;> simp_all

theorem dot_tick_msg_ne (e : ActiveEffect) (h : e.effect_type.isDot = true) :
    e.tick.2.2 ≠ "" := by
  rw [tick_msg_dot e h]
  exact append_ne_empty_of_right _ _ (by decide)

theorem process_turn_cons (e : ActiveEffect) (rest : List ActiveEffect) :
    process_turn (e :: rest) =
      ((if e.tick.1.is_expired then (process_turn rest).1
        else e.tick.1 :: (process_turn rest).1),
       e.tick.2.1 + (process_turn rest).2.1,
       if e.tick.2.2 ≠ "" then e.tick.2.2 :: (process_turn rest).2.2
       else (process_turn rest).2.2) := rfl

theorem process_turn_fst (l : List ActiveEffect) :
    (process_turn l).1 = (l.map tick_decrement).filter (fun e => !e.is_expired) := by
  induction l with
  | nil => rfl
  | cons e rest ih =>
    rw [process_turn_cons, List.map_cons, List.filter_cons]
    cases h : (tick_decrement e).is_expired <;> simp [tick_fst, h, ih]

theorem process_turn_damage (l : List ActiveEffect)
    (hp : ∀ e ∈ l, 0 ≤ e.power) (hs : ∀ e ∈ l, 0 ≤ e.«stacks») :
    (process_turn l).2.1 =
      ((l.filter (fun e => e.effect_type.isDot)).map dot_damage_of).sum := by
  induction l with
  | nil => rfl
  | cons e rest ih =>
    have hpe := hp e (by simp)
    have hse := hs e (by simp)
    have ihr := ih (fun x hx => hp x (by simp [hx])) (fun x hx => hs x (by simp [hx]))
    rw [process_turn_cons]
    cases h : e.effect_type.isDot
    · rw [List.filter_cons_of_neg (by simp [h])]
      show e.tick.2.1 + (process_turn rest).2.1 = _
      rw [tick_dmg_nondot e h, ihr, zero_add]
    · rw [List.filter_cons_of_pos (by simp [h]), List.map_cons, List.sum_cons]
      show e.tick.2.1 + (process_turn rest).2.1 = _
      rw [tick_dmg_dot e h, ihr,
        pyInt_eq_floor (mul_nonneg hpe (by exact_mod_cast hse))]
      rfl

theorem process_turn_msgs (l : List ActiveEffect)
    (hp : ∀ e ∈ l, 0 ≤ e.power) (hs : ∀ e ∈ l, 0 ≤ e.«stacks») :
    (process_turn l).2.2 =
      (l.filter (fun e => e.effect_type.isDot)).map dot_message_of := by
  induction l with
  | nil => rfl
  | cons e rest ih =>
    have hpe := hp e (by simp)
    have hse := hs e (by simp)
    have ihr := ih (fun x hx => hp x (by simp [hx])) (fun x hx => hs x (by simp [hx]))
    rw [process_turn_cons]
    cases h : e.effect_type.isDot
    · rw [List.filter_cons_of_neg (by simp [h])]
      show (if e.tick.2.2 ≠ "" then _ else _) = _
      rw [tick_msg_nondot e h]
      simp [ihr]
    · rw [List.filter_cons_of_pos (by simp [h]), List.map_cons]
      show (if e.tick.2.2 ≠ "" then e.tick.2.2 :: (process_turn rest).2.2
            else (process_turn rest).2.2) = _
      rw [if_pos (dot_tick_msg_ne e h), ihr, tick_msg_dot e h,
        pyInt_eq_floor (mul_nonneg hpe (by exact_mod_cast hse))]
      rfl

/-- C7: `process_turn` decrements every effect's duration by exactly 1
and keeps (in insertion order) exactly the effects still having positive
duration, so no expired effect remains; the total damage is the sum of
`floor(power * stacks)` over the DoT effects (FIRE/POISON/BLEED), with
one message per DoT effect naming the kind and the amount, in insertion
order. -/
theorem C7_process_turn_spec (l : List ActiveEffect)
    (hp : ∀ e ∈ l, 0 ≤ e.power) (hs : ∀ e ∈ l, 0 ≤ e.«stacks») :
    (process_turn l).1 =
      (l.map tick_decrement).filter (fun e => !e.is_expired) ∧
    (∀ e ∈ (process_turn l).1, 0 < e.duration) ∧
    (process_turn l).2.1 =
      ((l.filter (fun e => e.effect_type.isDot)).map dot_damage_of).sum ∧
    (process_turn l).2.2 =
      (l.filter (fun e => e.effect_type.isDot)).map dot_message_of := by
  refine ⟨process_turn_fst l, ?_, process_turn_damage l hp hs,
    process_turn_msgs l hp hs⟩
  intro e he
  rw [process_turn_fst l] at he
  have h2 := (List.mem_filter.mp he).2
  simp [ActiveEffect.is_expired] at h2
  exact h2

/-- C7 witness: one fire DoT (power 2, 2 turns left, 1 stack) and one
freeze effect on its last turn: the fire ticks for 2 with its message
and survives at duration 1; the freeze expires and is removed. -/
theorem C7_process_turn_spec_witness :
    (∀ e ∈ [(⟨.fire, 2, 2, "E", 1⟩ : ActiveEffect), ⟨.freeze, 1/2, 1, "E", 1⟩],
        0 ≤ e.power) ∧
    (∀ e ∈ [(⟨.fire, 2, 2, "E", 1⟩ : ActiveEffect), ⟨.freeze, 1/2, 1, "E", 1⟩],
        0 ≤ e.«stacks») ∧
    ((process_turn [⟨.fire, 2, 2, "E", 1⟩, ⟨.freeze, 1/2, 1, "E", 1⟩]).1 =
      ([(⟨.fire, 2, 2, "E", 1⟩ : ActiveEffect), ⟨.freeze, 1/2, 1, "E", 1⟩].map
          tick_decrement).filter (fun e => !e.is_expired) ∧
     (∀ e ∈ (process_turn [(⟨.fire, 2, 2, "E", 1⟩ : ActiveEffect),
          ⟨.freeze, 1/2, 1, "E", 1⟩]).1, 0 < e.duration) ∧
     (process_turn [⟨.fire, 2, 2, "E", 1⟩, ⟨.freeze, 1/2, 1, "E", 1⟩]).2.1 =
      (([(⟨.fire, 2, 2, "E", 1⟩ : ActiveEffect), ⟨.freeze, 1/2, 1, "E", 1⟩].filter
          (fun e => e.effect_type.isDot)).map dot_damage_of).sum ∧
     (process_turn [⟨.fire, 2, 2, "E", 1⟩, ⟨.freeze, 1/2, 1, "E", 1⟩]).2.2 =
      (([(⟨.fire, 2, 2, "E", 1⟩ : ActiveEffect), ⟨.freeze, 1/2, 1, "E", 1⟩].filter
          (fun e => e.effect_type.isDot)).map dot_message_of)) := by
  have hp : ∀ e ∈ [(⟨.fire, 2, 2, "E", 1⟩ : ActiveEffect), ⟨.freeze, 1/2, 1, "E", 1⟩],
      0 ≤ e.power := by
    intro e he
    fin_cases he <;> norm_num
  have hs : ∀ e ∈ [(⟨.fire, 2, 2, "E", 1⟩ : ActiveEffect), ⟨.freeze, 1/2, 1, "E", 1⟩],
      0 ≤ e.«stacks» := by
    intro e he
    fin_cases he <;> norm_num
  exact ⟨hp, hs, C7_process_turn_spec _ hp hs⟩

theorem add_effect_type_mem (l : List ActiveEffect) (e : ActiveEffect) :
    ∀ y ∈ add_effect l e, y.effect_type ∈ l.map ActiveEffect.effect_type ∨
      y.effect_type = e.effect_type := by
  induction l with
  | nil =>
    intro y hy
    simp [add_effect] at hy
    subst hy
    exact Or.inr rfl
  | cons x rest ih =>
    intro y hy
    by_cases hx : x.effect_type = e.effect_type
    · rw [add_effect, if_pos hx] at hy
      split at hy <;> rcases List.mem_cons.mp hy with h | h
      · left; subst h; simp
      · left; exact List.mem_map_of_mem _ (List.mem_cons_of_mem x h)
      · left; subst h; simp
      · left; exact List.mem_map_of_mem _ (List.mem_cons_of_mem x h)
    · rw [add_effect, if_neg hx] at hy
      rcases List.mem_cons.mp hy with h | h
      · left; subst h; simp
      · rcases ih y h with h2 | h2
        · left
          rw [List.map_cons]
          exact List.mem_cons_of_mem _ h2
        · exact Or.inr h2

theorem add_effect_distinct {l : List ActiveEffect} (e : ActiveEffect)
    (hd : types_distinct l) : types_distinct (add_effect l e) := by
  induction l with
  | nil => simp [add_effect, types_distinct]
  | cons x rest ih =>
    rw [types_distinct, List.pairwise_cons] at hd
    obtain ⟨hx_rest, hrest⟩ := hd
    by_cases hx : x.effect_type = e.effect_type
    · rw [add_effect, if_pos hx]
      split <;>
        exact List.pairwise_cons.mpr ⟨fun y hy => hx_rest y hy, hrest⟩
    · rw [add_effect, if_neg hx]
      rw [types_distinct, List.pairwise_cons]
      refine ⟨?_, ih hrest⟩
      intro y hy
      rcases add_effect_type_mem rest e y hy with h | h
      · rcases List.mem_map.mp h with ⟨z, hz, hze⟩
        rw [← hze]
        exact hx_rest z hz
      · rw [h]
        exact hx


theorem add_effect_absent (l : List ActiveEffect) (e : ActiveEffect)
    (h : ∀ x ∈ l, x.effect_type ≠ e.effect_type) :
    add_effect l e = l ++ [e] := by
  induction l with
  | nil => rfl
  | cons x rest ih =>
    rw [add_effect, if_neg (h x (by simp))]
    rw [ih (fun y hy => h y (by simp [hy]))]
    rfl

theorem add_effect_existing (l : List ActiveEffect) (e : ActiveEffect)
    (hd : types_distinct l) (hex : ∃ x ∈ l, x.effect_type = e.effect_type) :
    add_effect l e =
      l.map (fun y => if y.effect_type = e.effect_type then stack_update y e else y) := by
  induction l with
  | nil => simp at hex
  | cons x rest ih =>
    rw [types_distinct, List.pairwise_cons] at hd
    obtain ⟨hx_rest, hrest⟩ := hd
    by_cases hx : x.effect_type = e.effect_type
    · rw [add_effect, if_pos hx, List.map_cons, if_pos hx]
      have hmap : rest.map
          (fun y => if y.effect_type = e.effect_type then stack_update y e else y) = rest := by
        refine (List.map_congr_left fun y hy => ?_).trans (List.map_id rest)
        have hne : y.effect_type ≠ e.effect_type := by
          rw [← hx]
          exact fun hc => hx_rest y hy hc.symm
        show (if y.effect_type = e.effect_type then stack_update y e else y) = id y
        rw [if_neg hne]
        rfl
      rw [hmap, stack_update]
      split <;> rfl
    · rw [add_effect, if_neg hx, List.map_cons, if_neg hx]
      have hex2 : ∃ y ∈ rest, y.effect_type = e.effect_type := by
        rcases hex with ⟨z, hz, hze⟩
        rcases List.mem_cons.mp hz with h | h
        · exact absurd (h ▸ hze) hx
        · exact ⟨z, h, hze⟩
      rw [ih hrest hex2]

/-- C6: the effect list built by any sequence of `add_effect` calls has
at most one entry per effect type; re-adding an existing type updates
that entry in place — stacking kinds (BLEED, POISON) gain one stack,
every other kind only refreshes the duration to the max of the old and
new durations; two BLEED applications give one entry with two stacks,
and FREEZE duration 2 over FREEZE duration 1 gives duration 2. -/
theorem C6_add_effect_spec :
    (∀ es : List ActiveEffect, types_distinct (es.foldl add_effect [])) ∧
    (∀ (l : List ActiveEffect) (e : ActiveEffect), types_distinct l →
      (∃ x ∈ l, x.effect_type = e.effect_type) →
      add_effect l e =
        l.map (fun y => if y.effect_type = e.effect_type then stack_update y e else y)) ∧
    (∀ b1 b2 : ActiveEffect, b1.effect_type = .bleed → b2.effect_type = .bleed →
      b1.«stacks» = 1 →
      add_effect (add_effect [] b1) b2 =
        [{ b1 with «stacks» := 2, duration := max b1.duration b2.duration }]) ∧
    (∀ f1 f2 : ActiveEffect, f1.effect_type = .freeze → f2.effect_type = .freeze →
      f1.duration = 1 → f2.duration = 2 →
      add_effect [f1] f2 = [{ f1 with duration := 2 }]) := by
  refine ⟨?_, add_effect_existing, ?_, ?_⟩
  · intro es
    have key : ∀ (es : List ActiveEffect) (l : List ActiveEffect), types_distinct l →
        types_distinct (es.foldl add_effect l) := by
      intro es
      induction es with
      | nil => exact fun l hl => hl
      | cons e rest ih => exact fun l hl => ih _ (add_effect_distinct e hl)
    exact key es [] (by simp [types_distinct])
  · intro b1 b2 h1 h2 hst
    show add_effect [b1] b2 = _
    rw [add_effect, if_pos (by rw [h1, h2]), if_pos (Or.inl h2), hst]
    norm_num
  · intro f1 f2 h1 h2 hd1 hd2
    rw [add_effect, if_pos (by rw [h1, h2]), if_neg ?_, hd1, hd2]
    · have hm : (1 : ℤ) ⊔ 2 = 2 := max_eq_right (by norm_num)
      rw [hm]
    · rw [h2]
      rintro (h | h) <;> exact EffectType.noConfusion h

/-- C6 witness: re-applying FREEZE (power 1/2, duration 2) over an
active FREEZE of duration 1 yields the single entry refreshed to
duration 2. -/
theorem C6_add_effect_spec_witness :
    (⟨.freeze, 1/2, 1, "E", 1⟩ : ActiveEffect).effect_type = .freeze ∧
    (⟨.freeze, 1/2, 2, "E", 1⟩ : ActiveEffect).effect_type = .freeze ∧
    (⟨.freeze, 1/2, 1, "E", 1⟩ : ActiveEffect).duration = 1 ∧
    (⟨.freeze, 1/2, 2, "E", 1⟩ : ActiveEffect).duration = 2 ∧
    add_effect [⟨.freeze, 1/2, 1, "E", 1⟩] ⟨.freeze, 1/2, 2, "E", 1⟩ =
      [{ (⟨.freeze, 1/2, 1, "E", 1⟩ : ActiveEffect) with duration := 2 }] :=
  ⟨rfl, rfl, rfl, rfl, C6_add_effect_spec.2.2.2 _ _ rfl rfl rfl rfl⟩

theorem get_set_same (cs : CombatSystem) (p : Bool) (f : Fighter) :
    (cs.set_fighter p f).get_fighter p = f := by
  cases p <;> simp [CombatSystem.set_fighter, CombatSystem.get_fighter]

theorem get_set_other (cs : CombatSystem) (p : Bool) (f : Fighter) :
    (cs.set_fighter p f).get_fighter (!p) = cs.get_fighter (!p) := by
  cases p <;> simp [CombatSystem.set_fighter, CombatSystem.get_fighter]

theorem set_fighter_turn (cs : CombatSystem) (p : Bool) (f : Fighter) :
    (cs.set_fighter p f).turn = cs.turn := by
  cases p <;> simp [CombatSystem.set_fighter]

theorem set_fighter_log (cs : CombatSystem) (p : Bool) (f : Fighter) :
    (cs.set_fighter p f).combat_log = cs.combat_log := by
  cases p <;> simp [CombatSystem.set_fighter]

theorem set_fighter_names (cs : CombatSystem) (p : Bool) (f : Fighter) :
    (cs.set_fighter p f).player.name = (if p then f else cs.player).name ∧
    (cs.set_fighter p f).enemy.name = (if p then cs.enemy else f).name := by
  cases p <;> simp [CombatSystem.set_fighter]

theorem is_alive_false_of {f : Fighter} (h : f.current_health ≤ 0) :
    f.is_alive = false := by
  simp only [Fighter.is_alive, decide_eq_false_iff_not, not_lt]
  exact h

/-- C10: LIFESTEAL and VAMPIRIC healing set the attacker2xs health to
`min(maxHealth, currentHealth + floor(actualDamage * power))`; an
attacker holding more than `maxHealth` (concoction overheal) is
therefore clamped down to exactly `maxHealth`, strictly losing health. -/
theorem C10_lifesteal_clamp (attacker defender : Fighter) (damage : ℤ)
    (r : ℚ) (w : ItemStats)
    (hw : attacker.weapon = some w)
    (ht : w.effect_type = "lifesteal" ∨ w.effect_type = "vampiric")
    (hd : 0 ≤ damage) (hp : 0 ≤ w.effect_power) :
    (apply_weapon_effect attacker defender damage r).1.current_health =
      min attacker.max_health
        (attacker.current_health + ⌊(damage : ℚ) * w.effect_power⌋) ∧
    (attacker.max_health < attacker.current_health →
      (apply_weapon_effect attacker defender damage r).1.current_health =
          attacker.max_health ∧
      (apply_weapon_effect attacker defender damage r).1.current_health <
          attacker.current_health) := by
  have hnn : (0 : ℚ) ≤ (damage : ℚ) * w.effect_power :=
    mul_nonneg (by exact_mod_cast hd) hp
  have hheal : (0 : ℤ) ≤ ⌊(damage : ℚ) * w.effect_power⌋ :=
    Int.floor_nonneg.mpr hnn
  have hmain : (apply_weapon_effect attacker defender damage r).1.current_health =
      min attacker.max_health
        (attacker.current_health + ⌊(damage : ℚ) * w.effect_power⌋) := by
    rw [← pyInt_eq_floor hnn]
    rcases ht with h | h <;>
      simp [apply_weapon_effect, hw, h, effectTypeOfString]
  refine ⟨hmain, fun hover => ?_⟩
  have hle : attacker.max_health ≤
      attacker.current_health + ⌊(damage : ℚ) * w.effect_power⌋ :=
    le_trans (le_of_lt hover) (le_add_of_nonneg_right hheal)
  rw [hmain, min_eq_left hle]
  exact ⟨rfl, hover⟩

/-- C10 witness: a fighter overhealed to 120/100 by a concoction,
wielding a power-1/2 lifesteal weapon, lands 10 damage: healing clamps
its health down to 100. -/
theorem C10_lifesteal_clamp_witness :
    overhealed_fighter.weapon = some lifesteal_weapon ∧
    lifesteal_weapon.effect_type = "lifesteal" ∧
    overhealed_fighter.max_health < overhealed_fighter.current_health ∧
    (apply_weapon_effect overhealed_fighter (Fighter.make "E" 100 false)
        10 0).1.current_health = overhealed_fighter.max_health ∧
    (apply_weapon_effect overhealed_fighter (Fighter.make "E" 100 false)
        10 0).1.current_health < overhealed_fighter.current_health := by
  have h := (C10_lifesteal_clamp overhealed_fighter (Fighter.make "E" 100 false) 10 0
      lifesteal_weapon rfl (Or.inl rfl) (by norm_num)
      (by norm_num [lifesteal_weapon])).2
      (by norm_num [overhealed_fighter, Fighter.make])
  exact ⟨rfl, rfl, by norm_num [overhealed_fighter, Fighter.make], h.1, h.2⟩

/-- C4: when the attacker2xs start-of-turn DoT damage is positive and at
least its remaining health, the turn ends immediately: combat is over
with the defender as winner, the defeat and winner messages are
appended after the DoT messages, the log grows by exactly those
messages, the turn counter is incremented, and the defender is left
completely untouched — no attack, miss or weapon-effect step happens. -/
theorem C4_dot_kill (cs : CombatSystem) (rolls : TurnRolls)
    (hover : cs.combat_over = false)
    (hdot : 0 < (process_turn (cs.get_fighter cs.attacker_is_player).effects).2.1)
    (hkill : (cs.get_fighter cs.attacker_is_player).current_health ≤
             (process_turn (cs.get_fighter cs.attacker_is_player).effects).2.1) :
    (cs.execute_turn rolls).1.combat_over = true ∧
    (cs.execute_turn rolls).1.player_won = !cs.attacker_is_player ∧
    (cs.execute_turn rolls).1.turn = cs.turn + 1 ∧
    (cs.execute_turn rolls).1.get_fighter (!cs.attacker_is_player) =
      cs.get_fighter (!cs.attacker_is_player) ∧
    (cs.execute_turn rolls).2 =
      (process_turn (cs.get_fighter cs.attacker_is_player).effects).2.2 ++
        [(cs.get_fighter cs.attacker_is_player).name ++ " succumbs to their wounds!"] ++
        [(if !cs.attacker_is_player then cs.player.name else cs.enemy.name) ++ " wins!"] ∧
    (cs.execute_turn rolls).1.combat_log = cs.combat_log ++ (cs.execute_turn rolls).2 := by
  have hmax : max 0 ((cs.get_fighter cs.attacker_is_player).current_health -
      (process_turn (cs.get_fighter cs.attacker_is_player).effects).2.1) = 0 :=
    max_eq_left (sub_nonpos.mpr hkill)
  have halive : ∀ f1 : Fighter, f1.current_health =
        max 0 ((cs.get_fighter cs.attacker_is_player).current_health -
          (process_turn (cs.get_fighter cs.attacker_is_player).effects).2.1) →
      f1.is_alive = false := by
    intro f1 h1
    exact is_alive_false_of (by rw [h1, hmax])
  rw [CombatSystem.execute_turn]
  rw [if_neg (by rw [hover]; exact Bool.false_ne_true)]
  simp only [if_pos hdot]
  rw [halive _ rfl]
  simp only [Bool.not_false, if_pos trivial, set_fighter_turn, set_fighter_log]
  refine ⟨?_, ?_, ?_, ?_, ?_, ?_⟩ <;>
    first
    | trivial
    | exact get_set_other cs _ _

/-- C4 witness: a 5-HP fighter burning for 100 dies to the DoT tick;
the enemy never acts and wins untouched. -/
theorem C4_dot_kill_witness :
    dot_cs.combat_over = false ∧
    0 < (process_turn (dot_cs.get_fighter dot_cs.attacker_is_player).effects).2.1 ∧
    (dot_cs.get_fighter dot_cs.attacker_is_player).current_health ≤
      (process_turn (dot_cs.get_fighter dot_cs.attacker_is_player).effects).2.1 ∧
    ((dot_cs.execute_turn fixed_rolls).1.combat_over = true ∧
     (dot_cs.execute_turn fixed_rolls).1.player_won = !dot_cs.attacker_is_player ∧
     (dot_cs.execute_turn fixed_rolls).1.turn = dot_cs.turn + 1 ∧
     (dot_cs.execute_turn fixed_rolls).1.get_fighter (!dot_cs.attacker_is_player) =
       dot_cs.get_fighter (!dot_cs.attacker_is_player) ∧
     (dot_cs.execute_turn fixed_rolls).2 =
       (process_turn (dot_cs.get_fighter dot_cs.attacker_is_player).effects).2.2 ++
         [(dot_cs.get_fighter dot_cs.attacker_is_player).name ++
           " succumbs to their wounds!"] ++
         [(if !dot_cs.attacker_is_player then dot_cs.player.name
           else dot_cs.enemy.name) ++ " wins!"] ∧
     (dot_cs.execute_turn fixed_rolls).1.combat_log =
       dot_cs.combat_log ++ (dot_cs.execute_turn fixed_rolls).2) := by
  have h1 : dot_cs.combat_over = false := rfl
  have h2 : 0 < (process_turn (dot_cs.get_fighter dot_cs.attacker_is_player).effects).2.1 := by
    norm_num [dot_cs, dot_victim, CombatSystem.make, CombatSystem.attacker_is_player,
      CombatSystem.get_fighter, Fighter.make, Fighter.get_total_speed, process_turn,
      ActiveEffect.tick, EffectType.isDot, pyInt]
  have h3 : (dot_cs.get_fighter dot_cs.attacker_is_player).current_health ≤
      (process_turn (dot_cs.get_fighter dot_cs.attacker_is_player).effects).2.1 := by
    norm_num [dot_cs, dot_victim, CombatSystem.make, CombatSystem.attacker_is_player,
      CombatSystem.get_fighter, Fighter.make, Fighter.get_total_speed, process_turn,
      ActiveEffect.tick, EffectType.isDot, pyInt]
  exact ⟨h1, h2, h3, C4_dot_kill dot_cs fixed_rolls h1 h2 h3⟩

/-- C5 counterexample: the enemy (attacker, 5 HP, 5 damage) strikes the
thorns-armored player (defender, 5 HP, reflect power 1).  Reflect (5)
kills the enemy before `take_damage`, and the hit (5) kills the player;
both end at 0 health, yet the terminal check examines the player first,
so combat ends with `player_won = false`: the defender is the fighter
declared dead and the dead attacker is announced the winner ("E
wins!"), contradicting the claim that the attacker is declared dead in
every such scenario. -/
theorem C5_counterexample :
    reflect_cs.attacker_is_player = false ∧
    reflect_cs.player.current_health = 5 ∧
    reflect_cs.enemy.current_health = 5 ∧
    (reflect_cs.execute_turn fixed_rolls).1.player.current_health = 0 ∧
    (reflect_cs.execute_turn fixed_rolls).1.enemy.current_health = 0 ∧
    (reflect_cs.execute_turn fixed_rolls).1.combat_over = true ∧
    (reflect_cs.execute_turn fixed_rolls).1.player_won = false ∧
    (reflect_cs.execute_turn fixed_rolls).2 =
      ["E attacks P for 5 damage!", "  → Thorns reflect 5 damage back to E!",
       "E wins!"] := by
  norm_num [reflect_cs, reflect_player, reflect_enemy, reflect_armor, fixed_rolls,
    CombatSystem.make, CombatSystem.execute_turn, CombatSystem.attacker_is_player,
    CombatSystem.get_fighter, CombatSystem.set_fighter, CombatSystem.attack_phase,
    Fighter.make, Fighter.get_total_speed, Fighter.get_total_damage,
    Fighter.get_total_armor, Fighter.take_damage, Fighter.is_alive, process_turn,
    effective_attacker_speed, has_effect, get_effect_power, hit_chance_of,
    crit_applies, hit_damage, effect_chance_of, effect_triggers, attack_step,
    reflect_step, apply_weapon_effect, effectTypeOfString, pyInt, add_effect]
  decide

/-- C5 amended: on a hit, reflect damage is computed from the
pre-mitigation damage as `floor(damage * effectPower)` and taken from
the attacker before `take_damage` resolves the hit; when the attacker
is the PLAYER (weaponless, so no heal can follow), whose hit kills the
defender while its own health is at most the reflect damage, both
fighters reach 0 and the player — the attacker — is the fighter
declared dead (`player_won = false`).  (When the attacker is the enemy,
the player-first terminal check instead declares the dead enemy the
winner; see the counterexample.) -/
theorem C5_reflect_order (cs : CombatSystem) (rolls : TurnRolls) (a : ItemStats)
    (hover : cs.combat_over = false)
    (haip : cs.attacker_is_player = true)
    (hw : cs.player.weapon = none)
    (har : cs.enemy.armor = some a)
    (hrt : a.effect_type = "reflect")
    (hdot : (process_turn cs.player.effects).2.1 ≤ 0)
    (hhit : rolls.hit_roll < hit_chance_of (effective_attacker_speed
      { cs.player with effects := (process_turn cs.player.effects).1 }))
    (hrd : cs.player.current_health ≤
      pyInt ((hit_damage { cs.player with effects := (process_turn cs.player.effects).1 }
          rolls : ℚ) * a.effect_power))
    (hkill : cs.enemy.current_health ≤
      (cs.enemy.take_damage (hit_damage
          { cs.player with effects := (process_turn cs.player.effects).1 } rolls)).2) :
    (cs.execute_turn rolls).1.player.current_health = 0 ∧
    (cs.execute_turn rolls).1.enemy.current_health = 0 ∧
    (cs.execute_turn rolls).1.combat_over = true ∧
    (cs.execute_turn rolls).1.player_won = false := by
  have hrd0 : max 0 (cs.player.current_health -
      pyInt ((hit_damage { cs.player with effects := (process_turn cs.player.effects).1 }
        rolls : ℚ) * a.effect_power)) = 0 :=
    max_eq_left (sub_nonpos.mpr hrd)
  have hkill0 : max 0 (cs.enemy.current_health -
      (cs.enemy.take_damage (hit_damage
        { cs.player with effects := (process_turn cs.player.effects).1 } rolls)).2) = 0 :=
    max_eq_left (sub_nonpos.mpr hkill)
  have hdot2 : ¬ (0 < (process_turn cs.player.effects).2.1) := not_lt.mpr hdot
  simp only [Fighter.take_damage] at hkill hkill0
  simp only [hw] at hhit hrd hkill hrd0 hkill0
  simp only [CombatSystem.execute_turn, CombatSystem.attack_phase, attack_step,
    reflect_step, CombatSystem.get_fighter, CombatSystem.set_fighter,
    Fighter.take_damage,
    effect_triggers, crit_applies, hover, haip, hw, har, hrt, hhit, hdot2,
    Bool.false_eq_true, Bool.not_true, if_false, if_true, ite_true, ite_false,
    not_false_eq_true, Fighter.is_alive, hrd0, hkill0]
  norm_num

/-- C5 amended witness: the mirror scenario — the weaponless 5-HP
player lands 5 damage on the thorns-armored 5-HP enemy; reflect kills
the player first and the hit kills the enemy, and the player (the
attacker) is the fighter declared dead. -/
theorem C5_reflect_order_witness :
    (reflect_cs_mirror.execute_turn fixed_rolls).1.player.current_health = 0 ∧
    (reflect_cs_mirror.execute_turn fixed_rolls).1.enemy.current_health = 0 ∧
    (reflect_cs_mirror.execute_turn fixed_rolls).1.combat_over = true ∧
    (reflect_cs_mirror.execute_turn fixed_rolls).1.player_won = false := by
  refine C5_reflect_order reflect_cs_mirror fixed_rolls reflect_armor rfl ?_ rfl rfl
    rfl ?_ ?_ ?_ ?_
  · norm_num [reflect_cs_mirror, CombatSystem.make, CombatSystem.attacker_is_player,
      Fighter.make, Fighter.get_total_speed, reflect_armor]
  · norm_num [reflect_cs_mirror, CombatSystem.make, Fighter.make, process_turn]
  · norm_num [reflect_cs_mirror, CombatSystem.make, Fighter.make, process_turn,
      effective_attacker_speed, has_effect, Fighter.get_total_speed, hit_chance_of,
      fixed_rolls]
  · norm_num [reflect_cs_mirror, CombatSystem.make, Fighter.make, process_turn,
      hit_damage, crit_applies, Fighter.get_total_damage, pyInt, reflect_armor,
      fixed_rolls]
  · norm_num [reflect_cs_mirror, CombatSystem.make, Fighter.make, process_turn,
      hit_damage, crit_applies, Fighter.get_total_damage, Fighter.take_damage,
      Fighter.get_total_armor, pyInt, reflect_armor, fixed_rolls]

theorem take_damage_actual_nonneg (f : Fighter) (d : ℤ) (hd : 0 ≤ d) :
    0 ≤ (f.take_damage d).2 := by
  simp only [Fighter.take_damage]
  apply pyInt_nonneg
  apply mul_nonneg (by exact_mod_cast hd)
  have hred : min ((f.get_total_armor : ℚ) / 200) 0.75 ≤ 0.75 := min_le_right _ _
  linarith

theorem take_damage_health_ok (f : Fighter) (d : ℤ) (hf : f.health_ok) (hd : 0 ≤ d) :
    (f.take_damage d).1.health_ok := by
  have ha := take_damage_actual_nonneg f d hd
  have h1 := hf.1
  have h2 := hf.2
  constructor
  · exact le_max_left 0 _
  · show max 0 (f.current_health - (f.take_damage d).2) ≤ f.max_health + 50
    exact max_le (le_trans h1 h2) (by omega)

theorem process_turn_damage_nonneg (l : List ActiveEffect) (h : effects_nonneg l) :
    0 ≤ (process_turn l).2.1 := by
  induction l with
  | nil => simp [process_turn]
  | cons e rest ih =>
    have he := h e (by simp)
    have ihr := ih (fun x hx => h x (by simp [hx]))
    rw [process_turn_cons]
    have ht : 0 ≤ e.tick.2.1 := by
      cases hdot : e.effect_type.isDot
      · rw [tick_dmg_nondot e hdot]
      · rw [tick_dmg_dot e hdot]
        exact pyInt_nonneg (mul_nonneg he.1 (by exact_mod_cast he.2))
    exact add_nonneg ht ihr

theorem process_turn_effects_nonneg (l : List ActiveEffect) (h : effects_nonneg l) :
    effects_nonneg (process_turn l).1 := by
  rw [process_turn_fst]
  intro e he2
  have hm := List.mem_filter.mp he2
  rcases List.mem_map.mp hm.1 with ⟨x, hx, hxe⟩
  subst hxe
  exact h x hx

theorem hit_damage_nonneg (f : Fighter) (rolls : TurnRolls)
    (hbd : 0 ≤ f.base_damage) (hw : slot_nonneg f.weapon)
    (hv : 0 ≤ rolls.variance) : 0 ≤ hit_damage f rolls := by
  have h0 : 0 ≤ f.get_total_damage := by
    rw [Fighter.get_total_damage]
    rcases hwe : f.weapon with _ | w
    · show 0 ≤ f.base_damage + 0
      omega
    · rw [hwe] at hw
      have := hw.1
      show 0 ≤ f.base_damage + w.damage
      omega
  simp only [hit_damage]
  apply pyInt_nonneg
  apply mul_nonneg _ hv
  cases hc : crit_applies f rolls
  · simp only [Bool.false_eq_true, if_false]
    exact_mod_cast h0
  · simp only [if_true]
    exact_mod_cast pyInt_nonneg (mul_nonneg (by exact_mod_cast h0) (by norm_num))

theorem reflect_step_health (attacker defender : Fighter) (damage : ℤ)
    (ha : attacker.health_ok) (hdmg : 0 ≤ damage)
    (harm : slot_nonneg defender.armor) :
    (reflect_step attacker defender damage).1.health_ok := by
  rw [reflect_step]
  split
  · rename_i a h
    rw [h] at harm
    split
    · have hrd : 0 ≤ pyInt ((damage : ℚ) * a.effect_power) :=
        pyInt_nonneg (mul_nonneg (by exact_mod_cast hdmg) harm.2.2.2)
      have h1 := ha.1
      have h2 := ha.2
      constructor
      · show (0 : ℤ) ≤ max 0 (attacker.current_health - pyInt ((damage : ℚ) * a.effect_power))
        exact le_max_left 0 _
      · show max 0 (attacker.current_health - pyInt ((damage : ℚ) * a.effect_power)) ≤
          attacker.max_health + 50
        exact max_le (le_trans h1 h2) (by omega)
    · exact ha
  · exact ha

theorem reflect_step_frame (attacker defender : Fighter) (damage : ℤ) :
    (reflect_step attacker defender damage).1.max_health = attacker.max_health ∧
    (reflect_step attacker defender damage).1.weapon = attacker.weapon := by
  rw [reflect_step]
  split
  · split
    · exact ⟨rfl, rfl⟩
    · exact ⟨rfl, rfl⟩
  · exact ⟨rfl, rfl⟩

theorem apply_weapon_effect_health (attacker defender : Fighter) (damage : ℤ)
    (r : ℚ) (ha : attacker.health_ok) (hd : defender.health_ok)
    (hdmg : 0 ≤ damage) (hmaxa : 0 ≤ attacker.max_health)
    (hwnn : slot_nonneg attacker.weapon) (harm : slot_nonneg defender.armor) :
    (apply_weapon_effect attacker defender damage r).1.health_ok ∧
    (apply_weapon_effect attacker defender damage r).2.1.health_ok := by
  rw [apply_weapon_effect]
  split
  · exact ⟨ha, hd⟩
  · rename_i w hw
    rw [hw] at hwnn
    split
    · exact ⟨ha, hd⟩
    · split
      · exact ⟨ha, hd⟩
      · rename_i et het
        have hheal : 0 ≤ pyInt ((damage : ℚ) * w.effect_power) :=
          pyInt_nonneg (mul_nonneg (by exact_mod_cast hdmg) hwnn.2.2.2)
        have h1 := ha.1
        have h2 := ha.2
        cases et
        · exact ⟨ha, hd⟩
        · refine ⟨⟨?_, ?_⟩, hd⟩
          · show (0 : ℤ) ≤ min attacker.max_health
              (attacker.current_health + pyInt ((damage : ℚ) * w.effect_power))
            exact le_min hmaxa (by omega)
          · show min attacker.max_health
                (attacker.current_health + pyInt ((damage : ℚ) * w.effect_power)) ≤
              attacker.max_health + 50
            exact le_trans (min_le_left _ _) (by omega)
        · exact ⟨ha, hd⟩
        · by_cases hcrit : r < w.effect_power
          · simp only [hcrit, ite_true]
            exact ⟨ha, hd⟩
          · simp only [hcrit, ite_false]
            exact ⟨ha, hd⟩
        · exact ⟨ha, hd⟩
        · exact ⟨ha, hd⟩
        · exact ⟨ha, take_damage_health_ok defender _ hd
            (pyInt_nonneg hwnn.2.2.2)⟩
        · rcases harm2 : defender.armor with _ | a2
          · exact ⟨ha, hd⟩
          · rw [harm2] at harm
            have hrd : 0 ≤ pyInt ((damage : ℚ) * a2.effect_power) :=
              pyInt_nonneg (mul_nonneg (by exact_mod_cast hdmg) harm.2.2.2)
            by_cases hr : a2.effect_type = "reflect"
            · simp only [hr, ite_true]
              refine ⟨⟨?_, ?_⟩, hd⟩
              · exact le_max_left 0 _
              · show max 0 (attacker.current_health -
                    pyInt ((damage : ℚ) * a2.effect_power)) ≤ attacker.max_health + 50
                exact max_le (le_trans h1 h2) (by omega)
            · simp only [hr, ite_false]
              exact ⟨ha, hd⟩
        · exact ⟨ha, hd⟩
        · refine ⟨⟨?_, ?_⟩, hd⟩
          · show (0 : ℤ) ≤ min attacker.max_health
              (attacker.current_health + pyInt ((damage : ℚ) * w.effect_power))
            exact le_min hmaxa (by omega)
          · show min attacker.max_health
                (attacker.current_health + pyInt ((damage : ℚ) * w.effect_power)) ≤
              attacker.max_health + 50
            exact le_trans (min_le_left _ _) (by omega)

theorem attack_step_health (attacker defender : Fighter) (rolls : TurnRolls)
    (ha : attacker.health_ok) (hd : defender.health_ok)
    (hmaxa : 0 ≤ attacker.max_health) (hbd : 0 ≤ attacker.base_damage)
    (hwnn : slot_nonneg attacker.weapon) (harm : slot_nonneg defender.armor)
    (hv : 0 ≤ rolls.variance) :
    (attack_step attacker defender rolls).1.health_ok ∧
    (attack_step attacker defender rolls).2.1.health_ok := by
  have hdmg : 0 ≤ hit_damage attacker rolls := hit_damage_nonneg attacker rolls hbd hwnn hv
  rw [attack_step]
  by_cases hhit : rolls.hit_roll < hit_chance_of (effective_attacker_speed attacker)
  · rw [if_pos hhit]
    have ha1 : (reflect_step attacker defender (hit_damage attacker rolls)).1.health_ok :=
      reflect_step_health attacker defender _ ha hdmg harm
    have hd1 : (defender.take_damage (hit_damage attacker rolls)).1.health_ok :=
      take_damage_health_ok defender _ hd hdmg
    have hfr := reflect_step_frame attacker defender (hit_damage attacker rolls)
    cases heff : effect_triggers
        (reflect_step attacker defender (hit_damage attacker rolls)).1 rolls
    · simp only [heff, Bool.false_eq_true, if_false]
      exact ⟨ha1, hd1⟩
    · simp only [heff, if_true]
      refine apply_weapon_effect_health _ _ _ _ ha1 hd1
        (take_damage_actual_nonneg defender _ hdmg) ?_ ?_ ?_
      · rw [hfr.1]; exact hmaxa
      · rw [hfr.2]; exact hwnn
      · exact harm
  · rw [if_neg hhit]
    exact ⟨ha, hd⟩

theorem attack_phase_health (cs : CombatSystem) (aip : Bool)
    (msgs0 : List String) (rolls : TurnRolls)
    (hp : cs.player.health_ok) (he : cs.enemy.health_ok)
    (hpw : cs.player.wf) (hew : cs.enemy.wf) (hv : 0 ≤ rolls.variance) :
    (cs.attack_phase aip msgs0 rolls).1.player.health_ok ∧
    (cs.attack_phase aip msgs0 rolls).1.enemy.health_ok := by
  cases aip
  · have hstep := attack_step_health cs.enemy cs.player rolls he hp
      hew.1 hew.2.1 hew.2.2.2.1 hpw.2.2.2.2.1 hv
    simp only [CombatSystem.attack_phase, CombatSystem.get_fighter,
      CombatSystem.set_fighter, Bool.not_false, if_false, if_true,
      Bool.false_eq_true, ite_false, ite_true]
    constructor
    · split
      · exact hstep.2
      · split
        · exact hstep.2
        · exact hstep.2
    · split
      · exact hstep.1
      · split
        · exact hstep.1
        · exact hstep.1
  · have hstep := attack_step_health cs.player cs.enemy rolls hp he
      hpw.1 hpw.2.1 hpw.2.2.2.1 hew.2.2.2.2.1 hv
    simp only [CombatSystem.attack_phase, CombatSystem.get_fighter,
      CombatSystem.set_fighter, Bool.not_true, if_false, if_true,
      Bool.false_eq_true, ite_false, ite_true]
    constructor
    · split
      · exact hstep.1
      · split
        · exact hstep.1
        · exact hstep.1
    · split
      · exact hstep.2
      · split
        · exact hstep.2
        · exact hstep.2

theorem wf_update_effects (f : Fighter) (hw : f.wf) (es : List ActiveEffect)
    (hes : effects_nonneg es) :
    ({ f with effects := es } : Fighter).wf :=
  ⟨hw.1, hw.2.1, hw.2.2.1, hw.2.2.2.1, hw.2.2.2.2.1, hw.2.2.2.2.2.1, hes⟩

theorem wf_update_health_effects (f : Fighter) (hw : f.wf) (h : ℤ)
    (es : List ActiveEffect) (hes : effects_nonneg es) :
    ({ f with current_health := h, effects := es } : Fighter).wf :=
  ⟨hw.1, hw.2.1, hw.2.2.1, hw.2.2.2.1, hw.2.2.2.2.1, hw.2.2.2.2.2.1, hes⟩

/-- C8: after any combat-core operation — equipping items (the
concoction health bonus is capped at `maxHealth + 50`), `take_damage`,
and a whole `execute_turn` with its DoT, reflect, lightning and
lifesteal/vampiric updates — each fighter's `currentHealth` stays in
`[0, maxHealth + 50]`, under the spec's §3 stat ranges (non-negative
stats and effect powers) and a non-negative variance draw. -/
theorem C8_health_invariant :
    (∀ (f : Fighter) (w a c : Option ItemStats), f.health_ok → 0 ≤ f.max_health →
      slot_nonneg c → (f.equip_items w a c).health_ok) ∧
    (∀ (f : Fighter) (d : ℤ), f.health_ok → 0 ≤ d →
      (f.take_damage d).1.health_ok) ∧
    (∀ (cs : CombatSystem) (rolls : TurnRolls), cs.player.wf → cs.enemy.wf →
      cs.player.health_ok → cs.enemy.health_ok → 0 ≤ rolls.variance →
      (cs.execute_turn rolls).1.player.health_ok ∧
      (cs.execute_turn rolls).1.enemy.health_ok) := by
  refine ⟨?_, ?_, ?_⟩
  · intro f w a c hh hm hc
    rcases c with _ | c
    · exact hh
    · have hch := hc.2.2.1
      constructor
      · show (0 : ℤ) ≤ min (f.max_health + c.health) (f.max_health + 50)
        exact le_min (by omega) (by omega)
      · show min (f.max_health + c.health) (f.max_health + 50) ≤ f.max_health + 50
        exact min_le_right _ _
  · intro f d hh hd
    exact take_damage_health_ok f d hh hd
  · intro cs rolls hpw hew hp he hv
    rw [CombatSystem.execute_turn]
    by_cases hover : cs.combat_over = true
    · rw [if_pos hover]
      exact ⟨hp, he⟩
    · rw [if_neg hover]
      cases haip : cs.attacker_is_player
      · -- the enemy attacks
        have hdnn := process_turn_damage_nonneg cs.enemy.effects hew.2.2.2.2.2.2
        have hes := process_turn_effects_nonneg cs.enemy.effects hew.2.2.2.2.2.2
        have h1 := he.1
        have h2 := he.2
        simp only [haip, CombatSystem.get_fighter, CombatSystem.set_fighter,
          Bool.false_eq_true, if_false, ite_false]
        by_cases hdot : 0 < (process_turn cs.enemy.effects).2.1
        · simp only [hdot, ite_true]
          split
          · refine ⟨hp, ⟨le_max_left 0 _, ?_⟩⟩
            show max 0 (cs.enemy.current_health -
                (process_turn cs.enemy.effects).2.1) ≤ cs.enemy.max_health + 50
            exact max_le (le_trans h1 h2) (by omega)
          · refine attack_phase_health _ false _ rolls hp ?_ hpw ?_ hv
            · refine ⟨le_max_left 0 _, ?_⟩
              show max 0 (cs.enemy.current_health -
                  (process_turn cs.enemy.effects).2.1) ≤ cs.enemy.max_health + 50
              exact max_le (le_trans h1 h2) (by omega)
            · exact wf_update_health_effects cs.enemy hew _ _ hes
        · simp only [hdot, ite_false]
          refine attack_phase_health _ false _ rolls hp he ?_ ?_ hv
          · exact hpw
          · exact wf_update_effects cs.enemy hew _ hes
      · -- the player attacks
        have hdnn := process_turn_damage_nonneg cs.player.effects hpw.2.2.2.2.2.2
        have hes := process_turn_effects_nonneg cs.player.effects hpw.2.2.2.2.2.2
        have h1 := hp.1
        have h2 := hp.2
        simp only [haip, CombatSystem.get_fighter, CombatSystem.set_fighter,
          if_true, ite_true]
        by_cases hdot : 0 < (process_turn cs.player.effects).2.1
        · simp only [hdot, ite_true]
          split
          · refine ⟨⟨le_max_left 0 _, ?_⟩, he⟩
            show max 0 (cs.player.current_health -
                (process_turn cs.player.effects).2.1) ≤ cs.player.max_health + 50
            exact max_le (le_trans h1 h2) (by omega)
          · refine attack_phase_health _ true _ rolls ?_ he ?_ hew hv
            · refine ⟨le_max_left 0 _, ?_⟩
              show max 0 (cs.player.current_health -
                  (process_turn cs.player.effects).2.1) ≤ cs.player.max_health + 50
              exact max_le (le_trans h1 h2) (by omega)
            · exact wf_update_health_effects cs.player hpw _ _ hes
        · simp only [hdot, ite_false]
          refine attack_phase_health _ true _ rolls hp he ?_ ?_ hv
          · exact wf_update_effects cs.player hpw _ hes
          · exact hew

/-- C8 witness: the invariant instantiated at a fresh default combat
(both fighters 100/100, no equipment, no effects) with neutral rolls. -/
theorem C8_health_invariant_witness :
    ((CombatSystem.make (Fighter.make "P" 100 true)
        (Fighter.make "E" 100 false)).player.wf ∧
     (CombatSystem.make (Fighter.make "P" 100 true)
        (Fighter.make "E" 100 false)).enemy.wf ∧
     (0 : ℚ) ≤ fixed_rolls.variance) ∧
    ((CombatSystem.make (Fighter.make "P" 100 true)
        (Fighter.make "E" 100 false)).execute_turn fixed_rolls).1.player.health_ok ∧
    ((CombatSystem.make (Fighter.make "P" 100 true)
        (Fighter.make "E" 100 false)).execute_turn fixed_rolls).1.enemy.health_ok := by
  have hw1 : (CombatSystem.make (Fighter.make "P" 100 true)
      (Fighter.make "E" 100 false)).player.wf := by
    refine ⟨by norm_num [CombatSystem.make, Fighter.make], ?_, ?_, ?_, ?_, ?_, ?_⟩ <;>
      simp [CombatSystem.make, Fighter.make, slot_nonneg, effects_nonneg]
  have hw2 : (CombatSystem.make (Fighter.make "P" 100 true)
      (Fighter.make "E" 100 false)).enemy.wf := by
    refine ⟨by norm_num [CombatSystem.make, Fighter.make], ?_, ?_, ?_, ?_, ?_, ?_⟩ <;>
      simp [CombatSystem.make, Fighter.make, slot_nonneg, effects_nonneg]
  have hh1 : (CombatSystem.make (Fighter.make "P" 100 true)
      (Fighter.make "E" 100 false)).player.health_ok := by
    constructor <;> norm_num [CombatSystem.make, Fighter.make]
  have hh2 : (CombatSystem.make (Fighter.make "P" 100 true)
      (Fighter.make "E" 100 false)).enemy.health_ok := by
    constructor <;> norm_num [CombatSystem.make, Fighter.make]
  have hv : (0 : ℚ) ≤ fixed_rolls.variance := by norm_num [fixed_rolls]
  exact ⟨⟨hw1, hw2, hv⟩,
    C8_health_invariant.2.2 _ fixed_rolls hw1 hw2 hh1 hh2 hv⟩

/-- C9 witness: a finished combat between two default fighters is inert. -/
theorem C9_terminal_frame_witness :
    ({ CombatSystem.make (Fighter.make "P" 100 true) (Fighter.make "E" 100 false) with
        combat_over := true } : CombatSystem).combat_over = true ∧
    ({ CombatSystem.make (Fighter.make "P" 100 true) (Fighter.make "E" 100 false) with
        combat_over := true } : CombatSystem).execute_turn fixed_rolls =
      ({ CombatSystem.make (Fighter.make "P" 100 true) (Fighter.make "E" 100 false) with
          combat_over := true }, []) :=
  ⟨rfl, C9_terminal_frame _ fixed_rolls rfl⟩

end Fightcraft
